import Mathlib

/-!
Shallow embedding of the SmartWater backend core (`app/services.py` and
`app/models.py`): the data model, the automatic pump-control engine
(`_apply_automatic_control`), the alert rule engine
(`_check_and_generate_alerts`), the status-update orchestrator
(`update_system_status`), the manual control path (`manual_pump_control`)
and the activity logger (`_log_activity`).

Modelling conventions:
- Python `float` fields are embedded as `ℚ` (every comparison the code
  performs is an order comparison on exactly representable values).
- `datetime` values (timestamps) are opaque to the decision logic; the only
  temporal input the control engine reads is `datetime.now().hour`, which is
  passed explicitly as `currentHour`.
- Side effects (MongoDB inserts of alerts / logs / status records) are
  embedded as explicitly returned lists, in the order the code performs the
  inserts.
- Python string formatting of numbers inside alert messages
  (e.g. `f"{x:.2f}"`) is abstracted with `toString`; no claim inspects those
  formatted substrings.
-/

namespace WaterSystem

/-- `TankLevel` (models.py): ordered categorical tank level. -/
inductive TankLevel where
  | empty
  | low
  | medium
  | high
  | full
deriving DecidableEq, Repr

/-- `AlertType` (models.py). -/
inductive AlertType where
  | info
  | warning
  | error
  | critical
deriving DecidableEq, Repr

/-- `PumpStatus` (models.py). -/
inductive PumpStatus where
  | off
  | on
  | maintenance
  | error
deriving DecidableEq, Repr

/-- `SystemMode` (models.py). -/
inductive SystemMode where
  | manual
  | automatic
  | maintenance
deriving DecidableEq, Repr

/-- `SystemStatus` (models.py): one status snapshot reported by the sensors.
`last_updated` is an opaque timestamp never read by the decision logic. -/
structure SystemStatus where
  tinaco_level : TankLevel
  tinaco_percentage : ℚ
  cisterna_level : TankLevel
  cisterna_percentage : ℚ
  bomba_status : PumpStatus
  bomba_runtime_minutes : Int
  bomba_total_runtime_today : Int
  water_flow_rate : ℚ
  power_consumption : ℚ
  daily_power_consumption : ℚ
  water_temperature : Option ℚ
  ambient_temperature : Option ℚ
  last_updated : Int
  system_mode : SystemMode
deriving DecidableEq, Repr

/-- `SystemSettings` (models.py), all fields. -/
structure SystemSettings where
  system_name : String
  auto_mode_enabled : Bool
  fill_trigger_level : TankLevel
  fill_stop_level : TankLevel
  fill_trigger_percentage : ℚ
  fill_stop_percentage : ℚ
  max_pump_runtime_minutes : Int
  max_daily_runtime_minutes : Int
  min_cisterna_level_to_start : TankLevel
  energy_saving_enabled : Bool
  preferred_hours : List Int
  avoid_peak_hours : Bool
  peak_hours : List Int
  notifications_enabled : Bool
  email_notifications : Bool
  notification_email : Option String
  critical_alerts_only : Bool
  maintenance_reminder_days : Int
  last_maintenance_date : Option Int
  flow_rate_threshold : ℚ
  pressure_monitoring : Bool
  leak_detection_sensitivity : ℚ
deriving DecidableEq, Repr

/-- The pydantic field defaults of `SystemSettings` (models.py). -/
def defaultSettings : SystemSettings :=
  { system_name := "SmartWater System"
    auto_mode_enabled := true
    fill_trigger_level := TankLevel.low
    fill_stop_level := TankLevel.full
    fill_trigger_percentage := 25
    fill_stop_percentage := 90
    max_pump_runtime_minutes := 60
    max_daily_runtime_minutes := 240
    min_cisterna_level_to_start := TankLevel.low
    energy_saving_enabled := false
    preferred_hours := [22, 23, 0, 1, 2, 3, 4, 5]
    avoid_peak_hours := true
    peak_hours := [18, 19, 20, 21]
    notifications_enabled := true
    email_notifications := false
    notification_email := none
    critical_alerts_only := false
    maintenance_reminder_days := 30
    last_maintenance_date := none
    flow_rate_threshold := 10
    pressure_monitoring := false
    leak_detection_sensitivity := mkRat 4 5 }

/-- Pydantic validation of a `SystemSettings` value (models.py): the only
constrained fields are the two percentages (`ge=0, le=100`) and
`leak_detection_sensitivity` (`ge=0.1, le=1.0`).  There is no validator
relating `fill_stop_percentage` to `fill_trigger_percentage`. -/
def validSettings (s : SystemSettings) : Bool :=
  decide (0 ≤ s.fill_trigger_percentage) && decide (s.fill_trigger_percentage ≤ 100) &&
  decide (0 ≤ s.fill_stop_percentage) && decide (s.fill_stop_percentage ≤ 100) &&
  decide (mkRat 1 10 ≤ s.leak_detection_sensitivity) &&
  decide (s.leak_detection_sensitivity ≤ 1)

/-- `Alert` (models.py).  The `timestamp`/`resolved_at` datetimes are opaque
and omitted; `create_alert` always constructs alerts with the defaults
`resolved=False`, `auto_generated=True`, `requires_action=False`. -/
structure Alert where
  message : String
  alert_type : AlertType
  component : String
  severity_level : Int
  resolved : Bool
  resolved_by : Option String
  auto_generated : Bool
  requires_action : Bool
deriving DecidableEq, Repr

/-- `WaterSystemService.create_alert` (services.py): builds the alert record
inserted into the alerts collection. -/
def createAlert (message : String) (alert_type : AlertType) (component : String)
    (severity : Int) : Alert :=
  { message := message
    alert_type := alert_type
    component := component
    severity_level := severity
    resolved := false
    resolved_by := none
    auto_generated := true
    requires_action := false }

/-- `WaterUsageLog` (models.py), the fields `_log_activity` fills in. -/
structure WaterUsageLog where
  action : String
  tinaco_level_before : TankLevel
  tinaco_level_after : TankLevel
  tinaco_percentage_before : ℚ
  tinaco_percentage_after : ℚ
  duration_minutes : Option Int
  water_amount_liters : Option ℚ
  power_consumed_kwh : Option ℚ
  triggered_by : String
  operation_mode : SystemMode
  efficiency_score : Option ℚ
  notes : Option String
deriving DecidableEq, Repr

/-- Python truthiness of an optional float: `not x` holds for `None` and `0.0`. -/
def optionalFloatFalsy (x : Option ℚ) : Bool :=
  match x with
  | none => true
  | some v => decide (v = 0)

/-- Python truthiness of an optional int duration: `if duration` holds unless
`None` or `0`. -/
def durationTruthy (x : Option Int) : Bool :=
  match x with
  | none => false
  | some d => decide (d ≠ 0)

/-- `WaterSystemService._log_activity` (services.py): builds the usage-log
record inserted into the logs collection. -/
def logActivity (action : String) (status : SystemStatus) (duration : Option Int)
    (waterAmount : Option ℚ) (actionDescription : Option String) : WaterUsageLog :=
  let waterAmount :=
    if action = "fill_complete" && optionalFloatFalsy waterAmount then
      some ((status.tinaco_percentage - 20) * 10)
    else waterAmount
  { action := action
    tinaco_level_before := status.tinaco_level
    tinaco_level_after := status.tinaco_level
    tinaco_percentage_before := status.tinaco_percentage
    tinaco_percentage_after := status.tinaco_percentage
    duration_minutes := duration
    water_amount_liters := waterAmount
    power_consumed_kwh :=
      if durationTruthy duration then
        match duration with
        | some d => some (status.power_consumption * (d : ℚ) / 60 / 1000)
        | none => none
      else none
    triggered_by := "system"
    operation_mode := status.system_mode
    efficiency_score := none
    notes := actionDescription }

/-- Result of one `_apply_automatic_control` evaluation: the (possibly
mutated) working status plus the alert and log records it inserted, in
insertion order. -/
structure ControlResult where
  status : SystemStatus
  alerts : List Alert
  logs : List WaterUsageLog
deriving DecidableEq, Repr

/-- The `should_start_pump` conjunction of `_apply_automatic_control`. -/
def shouldStartPump (status : SystemStatus) (settings : SystemSettings) : Bool :=
  decide (status.tinaco_percentage ≤ settings.fill_trigger_percentage) &&
  decide (status.cisterna_level ≠ TankLevel.empty) &&
  decide (status.bomba_status = PumpStatus.off) &&
  decide (status.bomba_total_runtime_today < settings.max_daily_runtime_minutes)

/-- The `should_stop_pump` condition of `_apply_automatic_control`. -/
def shouldStopPump (status : SystemStatus) (settings : SystemSettings) : Bool :=
  decide (status.bomba_status = PumpStatus.on) &&
  (decide (status.tinaco_percentage ≥ settings.fill_stop_percentage) ||
   decide (status.cisterna_level = TankLevel.empty) ||
   decide (status.bomba_runtime_minutes ≥ settings.max_pump_runtime_minutes))

/-- The stop half of `_apply_automatic_control`: if `should_stop_pump`, set
the pump off, pick the reason with the priority of the code (cisterna empty, then
max runtime, else fill complete), insert the alert and the `auto_stop` log. -/
def applyStopCheck (status : SystemStatus) (settings : SystemSettings) : ControlResult :=
  if shouldStopPump status settings then
    let stopped := { status with bomba_status := PumpStatus.off }
    let reason :=
      if stopped.cisterna_level = TankLevel.empty then "Cisterna vacía"
      else if stopped.bomba_runtime_minutes ≥ settings.max_pump_runtime_minutes then
        "Tiempo máximo alcanzado"
      else "Llenado completado"
    { status := stopped
      alerts := [createAlert ("Bomba apagada automáticamente: " ++ reason)
                   AlertType.info "bomba" 3]
      logs := [logActivity "auto_stop" stopped none none (some reason)] }
  else { status := status, alerts := [], logs := [] }

/-- `WaterSystemService._apply_automatic_control` (services.py).  Note the
source uses two sequential `if` statements: when a (non-gated) start fires it
mutates the working status and execution falls through to the stop check,
which re-evaluates `should_stop_pump` on the already-started status.  The two
gated branches `return` early, skipping the stop check.  `create_alert` is
called without an explicit severity there, so the pydantic default 3 applies. -/
def applyAutomaticControl (currentHour : Int) (status : SystemStatus)
    (settings : SystemSettings) : ControlResult :=
  if shouldStartPump status settings then
    if settings.energy_saving_enabled && !(settings.preferred_hours.contains currentHour) then
      { status := status
        alerts := [createAlert "Llenado pospuesto por modo ahorro energético"
                     AlertType.info "sistema" 3]
        logs := [] }
    else if settings.avoid_peak_hours && settings.peak_hours.contains currentHour then
      { status := status
        alerts := [createAlert "Llenado pospuesto por horas pico" AlertType.info "sistema" 3]
        logs := [] }
    else
      let started := { status with bomba_status := PumpStatus.on
                                   system_mode := SystemMode.automatic }
      let rest := applyStopCheck started settings
      { status := rest.status
        alerts := createAlert "Bomba encendida automáticamente" AlertType.info "bomba" 3
                    :: rest.alerts
        logs := logActivity "auto_start" started none none none :: rest.logs }
  else
    applyStopCheck status settings

/-- `WaterSystemService._check_and_generate_alerts` (services.py): the five
alert rules, evaluated in source order, each appending at most one alert.
Rule 4 compares `daily_power_consumption` against the literal `5.0` kWh. -/
def checkAndGenerateAlerts (status : SystemStatus) (settings : SystemSettings) : List Alert :=
  (if status.cisterna_level = TankLevel.empty then
    [createAlert "⚠️ CRÍTICO: Cisterna vacía - Revisar suministro de agua"
       AlertType.critical "cisterna" 5]
  else []) ++
  (if status.bomba_runtime_minutes > settings.max_pump_runtime_minutes then
    [createAlert ("⚠️ Bomba funcionando " ++ toString status.bomba_runtime_minutes ++
        " minutos - Posible fuga o obstrucción") AlertType.error "bomba" 4]
  else []) ++
  (if status.tinaco_level = TankLevel.low ∧ status.cisterna_level ≠ TankLevel.empty ∧
      status.bomba_status = PumpStatus.off then
    [createAlert "Nivel de tinaco bajo - Llenado requerido" AlertType.warning "tinaco" 3]
  else []) ++
  (if status.daily_power_consumption > 5 then
    [createAlert ("Consumo energético alto: " ++ toString status.daily_power_consumption ++
        " kWh hoy") AlertType.warning "energia" 3]
  else []) ++
  (if status.bomba_status = PumpStatus.on ∧
      status.water_flow_rate < settings.flow_rate_threshold then
    [createAlert ("Flujo de agua bajo: " ++ toString status.water_flow_rate ++ " L/min")
       AlertType.warning "bomba" 3]
  else [])

/-- Result of one `update_system_status` call: `persisted` is the record the
code inserts into the status collection, `working` the in-memory status after
control ran, and the alert/log records in insertion order. -/
structure UpdateResult where
  persisted : SystemStatus
  working : SystemStatus
  alerts : List Alert
  logs : List WaterUsageLog
deriving DecidableEq, Repr

/-- `WaterSystemService.update_system_status` (services.py).  The source
inserts `status.dict()` into the status collection FIRST, then (if
`auto_mode_enabled`) runs `_apply_automatic_control` — which mutates the
in-memory `status` object — then `_check_and_generate_alerts` on that same
object, then logs a `"status_update"` activity. -/
def updateSystemStatus (currentHour : Int) (status : SystemStatus)
    (settings : SystemSettings) : UpdateResult :=
  let persisted := status
  let ctrl :=
    if settings.auto_mode_enabled then applyAutomaticControl currentHour status settings
    else { status := status, alerts := [], logs := [] }
  { persisted := persisted
    working := ctrl.status
    alerts := ctrl.alerts ++ checkAndGenerateAlerts ctrl.status settings
    logs := ctrl.logs ++ [logActivity "status_update" ctrl.status none none none] }

/-- Outcome of `manual_pump_control` on the fetched current status: either an
early-return rejection (`success: False` with a message and no mutation) or
acceptance carrying the mutated status that is then persisted. -/
inductive ManualResult where
  | rejected (message : String)
  | accepted (newStatus : SystemStatus) (message : String)
deriving DecidableEq, Repr

/-- `WaterSystemService.manual_pump_control` (services.py): `"start"` is
rejected iff the pump is already `ON`; `"stop"` iff already `OFF`; any other
action string is invalid.  Acceptance overwrites the pump state with the
requested one and sets `system_mode = MANUAL`. -/
def manualPumpControl (action : String) (current : SystemStatus) : ManualResult :=
  if action = "start" then
    if current.bomba_status = PumpStatus.on then
      ManualResult.rejected "La bomba ya está encendida"
    else
      ManualResult.accepted
        { current with bomba_status := PumpStatus.on, system_mode := SystemMode.manual }
        "Bomba encendida manualmente"
  else if action = "stop" then
    if current.bomba_status = PumpStatus.off then
      ManualResult.rejected "La bomba ya está apagada"
    else
      ManualResult.accepted
        { current with bomba_status := PumpStatus.off, system_mode := SystemMode.manual }
        "Bomba apagada manualmente"
  else ManualResult.rejected "Acción no válida"

/-- Whether a `ManualResult` is a rejection. -/
def ManualResult.isRejected : ManualResult → Bool
  | ManualResult.rejected _ => true
  | ManualResult.accepted _ _ => false

/-! ### Concrete inputs used by witnesses and counterexamples -/

/-- The §8 scenario snapshot: tinaco low at 22 %, cisterna high, pump off. -/
def lowTinacoStatus : SystemStatus :=
  { tinaco_level := TankLevel.low
    tinaco_percentage := 22
    cisterna_level := TankLevel.high
    cisterna_percentage := 80
    bomba_status := PumpStatus.off
    bomba_runtime_minutes := 0
    bomba_total_runtime_today := 0
    water_flow_rate := 0
    power_consumption := 0
    daily_power_consumption := 0
    water_temperature := none
    ambient_temperature := none
    last_updated := 0
    system_mode := SystemMode.automatic }

/-- Pump off but the continuous-runtime field still reads 65 minutes
(≥ the 60-minute default limit) while the daily total is 70 < 240. -/
def staleRuntimeStatus : SystemStatus :=
  { lowTinacoStatus with
      tinaco_percentage := 20
      cisterna_level := TankLevel.low
      cisterna_percentage := 30
      bomba_runtime_minutes := 65
      bomba_total_runtime_today := 70 }

/-- Like `staleRuntimeStatus` but with a 100-minute continuous-runtime
reading and 100 minutes total today. -/
def staleRuntimeStatus100 : SystemStatus :=
  { lowTinacoStatus with
      tinaco_percentage := 20
      cisterna_level := TankLevel.low
      cisterna_percentage := 30
      bomba_runtime_minutes := 100
      bomba_total_runtime_today := 100 }

/-- Pump on for 65 continuous minutes with plenty of water everywhere. -/
def longRunningPumpStatus : SystemStatus :=
  { lowTinacoStatus with
      tinaco_level := TankLevel.medium
      tinaco_percentage := 50
      bomba_status := PumpStatus.on
      bomba_runtime_minutes := 65
      bomba_total_runtime_today := 65
      water_flow_rate := 15 }

/-- Pump externally set to `maintenance`. -/
def maintenanceStatus : SystemStatus :=
  { lowTinacoStatus with bomba_status := PumpStatus.maintenance }

/-- Mid-level tinaco at 45 %, pump off. -/
def midTinacoStatus : SystemStatus :=
  { lowTinacoStatus with
      tinaco_level := TankLevel.medium
      tinaco_percentage := 45 }

/-- High daily power consumption (6 kWh) with nothing else abnormal. -/
def highPowerStatus : SystemStatus :=
  { lowTinacoStatus with
      tinaco_level := TankLevel.medium
      tinaco_percentage := 50
      daily_power_consumption := 6 }

/-- Settings whose stop percentage (40) is below the trigger percentage
(50) — the per-field pydantic constraints all hold. -/
def invertedThresholdSettings : SystemSettings :=
  { defaultSettings with
      fill_trigger_percentage := 50
      fill_stop_percentage := 40 }

/-- Default settings with the energy-saving gate switched on. -/
def energySavingSettings : SystemSettings :=
  { defaultSettings with energy_saving_enabled := true }

/-! ### Claim theorems -/

/-- C7: for every status snapshot whose pump state is `maintenance` or
`error`, automatic control is a no-op: neither the start condition (which
requires pump `off`) nor the stop condition (which requires pump `on`) can
hold, so the status is returned unchanged in every field and no alert or log
record is produced.  The engine never transitions the pump out of
`maintenance` or `error`. -/
theorem auto_control_maintenance_noop (currentHour : Int) (status : SystemStatus)
    (settings : SystemSettings)
    (h : status.bomba_status = PumpStatus.maintenance ∨ status.bomba_status = PumpStatus.error) :
    applyAutomaticControl currentHour status settings = ⟨status, [], []⟩ := by
  have hstart : shouldStartPump status settings = false := by
    rcases h with h | h <;> simp [shouldStartPump, h]
  have hstop : shouldStopPump status settings = false := by
    rcases h with h | h <;> simp [shouldStopPump, h]
  simp [applyAutomaticControl, hstart, applyStopCheck, hstop]

/-- Witness for C7: a concrete snapshot in `maintenance` passes through
automatic control untouched. -/
theorem auto_control_maintenance_noop_witness :
    applyAutomaticControl 12 maintenanceStatus defaultSettings = ⟨maintenanceStatus, [], []⟩ :=
  auto_control_maintenance_noop 12 maintenanceStatus defaultSettings (Or.inl rfl)

/-- C3 (amended): the start and stop predicates are mutually exclusive on any
single status, because the start condition requires pump state `off` and the
stop condition requires pump state `on`.  (The further consequence claimed —
at most one pump-state transition per evaluation — fails on the code: see the
counterexample, where the stop condition is re-evaluated on the started
working copy.) -/
theorem start_stop_conditions_mutually_exclusive (status : SystemStatus)
    (settings : SystemSettings) :
    (shouldStartPump status settings && shouldStopPump status settings) = false := by
  cases hb : status.bomba_status <;> simp [shouldStartPump, shouldStopPump, hb]

/-- Counterexample for C3: a snapshot with pump off, tinaco at 20 % and a
stale 100-minute continuous-runtime reading (total today 100 < 240) satisfies
the start condition under default settings; the code starts the pump and then
the stop check — re-run on the started working copy — immediately stops it
again (100 ≥ 60), so a single evaluation applies a start followed by a stop on
the same incoming report. -/
theorem start_stop_conditions_cx :
    (applyAutomaticControl 10 staleRuntimeStatus100 defaultSettings).logs.map
        WaterUsageLog.action = ["auto_start", "auto_stop"] ∧
    (applyAutomaticControl 10 staleRuntimeStatus100 defaultSettings).status.bomba_status =
      PumpStatus.off := by decide

/-- C2: for every snapshot with pump on where some stop condition holds
(cisterna empty, continuous runtime ≥ max_pump_runtime_minutes, or tinaco
percentage ≥ fill_stop_percentage), automatic control turns the pump off and
reports the reason by fixed priority: cisterna empty ("Cisterna vacía") over
max runtime ("Tiempo máximo alcanzado") over fill complete ("Llenado
completado"); in particular with cisterna non-empty and runtime ≥ max the
reason is the max-runtime one regardless of tinaco percentage. -/
theorem auto_stop_priority (currentHour : Int) (status : SystemStatus)
    (settings : SystemSettings)
    (hOn : status.bomba_status = PumpStatus.on)
    (hTrig : status.cisterna_level = TankLevel.empty ∨
             status.bomba_runtime_minutes ≥ settings.max_pump_runtime_minutes ∨
             status.tinaco_percentage ≥ settings.fill_stop_percentage) :
    (applyAutomaticControl currentHour status settings =
      { status := { status with bomba_status := PumpStatus.off }
        alerts := [createAlert ("Bomba apagada automáticamente: " ++
          (if status.cisterna_level = TankLevel.empty then "Cisterna vacía"
           else if status.bomba_runtime_minutes ≥ settings.max_pump_runtime_minutes then
             "Tiempo máximo alcanzado"
           else "Llenado completado")) AlertType.info "bomba" 3]
        logs := [logActivity "auto_stop" { status with bomba_status := PumpStatus.off }
          none none
          (some (if status.cisterna_level = TankLevel.empty then "Cisterna vacía"
                 else if status.bomba_runtime_minutes ≥ settings.max_pump_runtime_minutes then
                   "Tiempo máximo alcanzado"
                 else "Llenado completado"))] }) ∧
    (status.cisterna_level ≠ TankLevel.empty →
      status.bomba_runtime_minutes ≥ settings.max_pump_runtime_minutes →
      (if status.cisterna_level = TankLevel.empty then "Cisterna vacía"
       else if status.bomba_runtime_minutes ≥ settings.max_pump_runtime_minutes then
         "Tiempo máximo alcanzado"
       else "Llenado completado") = "Tiempo máximo alcanzado") := by
  have hstart : shouldStartPump status settings = false := by
    simp [shouldStartPump, hOn]
  have hstop : shouldStopPump status settings = true := by
    rcases hTrig with h | h | h <;> simp [shouldStopPump, hOn, h]
  constructor
  · simp [applyAutomaticControl, hstart, applyStopCheck, hstop]
  · intro h1 h2
    simp [h1, h2]

/-- Witness for C2: pump on for 65 continuous minutes with the 60-minute
default limit, cisterna high and tinaco at 50 % — stop decision with reason
"Tiempo máximo alcanzado" irrespective of the mid-level tinaco. -/
theorem auto_stop_priority_witness :
    defaultSettings.max_pump_runtime_minutes ≤ longRunningPumpStatus.bomba_runtime_minutes ∧
    applyAutomaticControl 10 longRunningPumpStatus defaultSettings =
      { status := { longRunningPumpStatus with bomba_status := PumpStatus.off }
        alerts := [createAlert "Bomba apagada automáticamente: Tiempo máximo alcanzado"
          AlertType.info "bomba" 3]
        logs := [logActivity "auto_stop"
          { longRunningPumpStatus with bomba_status := PumpStatus.off } none none
          (some "Tiempo máximo alcanzado")] } :=
  ⟨by decide,
    ((auto_stop_priority 10 longRunningPumpStatus defaultSettings rfl
        (Or.inr (Or.inl (by decide)))).1).trans (by decide)⟩

/-- Helper: when the start condition holds and neither the energy-saving gate
nor the peak-hours gate fires, and the stop condition does not hold on the
started working copy, the evaluation starts the pump, sets automatic mode, and
records exactly the start alert and the auto_start log. -/
theorem control_start_no_gates (currentHour : Int) (status : SystemStatus)
    (settings : SystemSettings)
    (hstart : shouldStartPump status settings = true)
    (hEnergy : (settings.energy_saving_enabled &&
      !(settings.preferred_hours.contains currentHour)) = false)
    (hPeak : (settings.avoid_peak_hours && settings.peak_hours.contains currentHour) = false)
    (hstop : shouldStopPump
      { status with bomba_status := PumpStatus.on, system_mode := SystemMode.automatic }
      settings = false) :
    applyAutomaticControl currentHour status settings =
      { status := { status with bomba_status := PumpStatus.on
                                system_mode := SystemMode.automatic }
        alerts := [createAlert "Bomba encendida automáticamente" AlertType.info "bomba" 3]
        logs := [logActivity "auto_start"
          { status with bomba_status := PumpStatus.on, system_mode := SystemMode.automatic }
          none none none] } := by
  simp only [applyAutomaticControl, hstart, hEnergy, hPeak, applyStopCheck, hstop,
    Bool.false_eq_true, eq_self_iff_true, if_true, if_false, ite_true, ite_false]

/-- C1 (amended): under the start condition (pump off, tinaco ≤ trigger,
cisterna non-empty, runtime today < daily limit) and the two additional
premises forced by the counterexample — continuous runtime < max continuous
limit and tinaco < stop percentage, so that the stop check cannot re-fire on
the started copy — the evaluation is exactly the claimed three-way decision:
energy-saving gate defers with the pump unchanged, else peak-hours gate defers
with the pump unchanged, else the pump is set on with automatic mode and the
auto_start reason. -/
theorem auto_start_policy (currentHour : Int) (status : SystemStatus)
    (settings : SystemSettings)
    (hTin : status.tinaco_percentage ≤ settings.fill_trigger_percentage)
    (hCis : status.cisterna_level ≠ TankLevel.empty)
    (hOff : status.bomba_status = PumpStatus.off)
    (hDaily : status.bomba_total_runtime_today < settings.max_daily_runtime_minutes)
    (hRun : status.bomba_runtime_minutes < settings.max_pump_runtime_minutes)
    (hNotFull : status.tinaco_percentage < settings.fill_stop_percentage) :
    applyAutomaticControl currentHour status settings =
      (if settings.energy_saving_enabled &&
          !(settings.preferred_hours.contains currentHour) then
        { status := status
          alerts := [createAlert "Llenado pospuesto por modo ahorro energético"
            AlertType.info "sistema" 3]
          logs := [] }
      else if settings.avoid_peak_hours && settings.peak_hours.contains currentHour then
        { status := status
          alerts := [createAlert "Llenado pospuesto por horas pico" AlertType.info "sistema" 3]
          logs := [] }
      else
        { status := { status with bomba_status := PumpStatus.on
                                  system_mode := SystemMode.automatic }
          alerts := [createAlert "Bomba encendida automáticamente" AlertType.info "bomba" 3]
          logs := [logActivity "auto_start"
            { status with bomba_status := PumpStatus.on, system_mode := SystemMode.automatic }
            none none none] }) := by
  have hstart : shouldStartPump status settings = true := by
    simp [shouldStartPump, hTin, hCis, hOff, hDaily]
  have h1 : ¬ (status.tinaco_percentage ≥ settings.fill_stop_percentage) := not_le.mpr hNotFull
  have h2 : ¬ (status.bomba_runtime_minutes ≥ settings.max_pump_runtime_minutes) :=
    not_le.mpr hRun
  have hstop : shouldStopPump
      { status with bomba_status := PumpStatus.on, system_mode := SystemMode.automatic }
      settings = false := by
    simp [shouldStopPump, hCis, h1, h2]
  by_cases hE : (settings.energy_saving_enabled &&
      !(settings.preferred_hours.contains currentHour)) = true
  · simp only [applyAutomaticControl, hstart, hE, eq_self_iff_true, if_true, ite_true]
  · rw [Bool.not_eq_true] at hE
    by_cases hP : (settings.avoid_peak_hours && settings.peak_hours.contains currentHour) = true
    · simp only [applyAutomaticControl, hstart, hE, hP, Bool.false_eq_true, eq_self_iff_true,
        if_true, if_false, ite_true, ite_false]
    · rw [Bool.not_eq_true] at hP
      rw [control_start_no_gates currentHour status settings hstart hE hP hstop]
      simp only [hE, hP, Bool.false_eq_true, if_false, ite_false]

/-- Witness for C1: the §8 scenario (tinaco low 22 %, cisterna high, pump off,
default settings) at hour 10 — no gate fires and the pump is started. -/
theorem auto_start_policy_witness :
    lowTinacoStatus.tinaco_percentage ≤ defaultSettings.fill_trigger_percentage ∧
    applyAutomaticControl 10 lowTinacoStatus defaultSettings =
      { status := { lowTinacoStatus with bomba_status := PumpStatus.on
                                         system_mode := SystemMode.automatic }
        alerts := [createAlert "Bomba encendida automáticamente" AlertType.info "bomba" 3]
        logs := [logActivity "auto_start"
          { lowTinacoStatus with bomba_status := PumpStatus.on
                                 system_mode := SystemMode.automatic }
          none none none] } :=
  ⟨by decide,
    (auto_start_policy 10 lowTinacoStatus defaultSettings (by decide) (by decide) rfl
      (by decide) (by decide) (by decide)).trans (by decide)⟩

/-- Counterexample for C1: this snapshot satisfies every hypothesis of the
claim (tinaco 20 ≤ trigger 25, cisterna non-empty, pump off, 70 < 240 daily)
and no gate fires at hour 10, yet the outcome is NOT a started pump: the
continuous-runtime field reads 65 ≥ 60, so after the start the stop check
fires on the started copy and the evaluation ends with the pump off, having
logged both auto_start and auto_stop. -/
theorem auto_start_policy_cx :
    staleRuntimeStatus.tinaco_percentage ≤ defaultSettings.fill_trigger_percentage ∧
    staleRuntimeStatus.cisterna_level ≠ TankLevel.empty ∧
    staleRuntimeStatus.bomba_status = PumpStatus.off ∧
    staleRuntimeStatus.bomba_total_runtime_today < defaultSettings.max_daily_runtime_minutes ∧
    defaultSettings.energy_saving_enabled = false ∧
    defaultSettings.peak_hours.contains 10 = false ∧
    (applyAutomaticControl 10 staleRuntimeStatus defaultSettings).status.bomba_status =
      PumpStatus.off ∧
    (applyAutomaticControl 10 staleRuntimeStatus defaultSettings).logs.map
      WaterUsageLog.action = ["auto_start", "auto_stop"] := by decide

/-- C10: manual_pump_control rejects "start" exactly when the pump is already
on and "stop" exactly when it is already off; consequently from `maintenance`
or `error` both requests are accepted and overwrite the pump state with the
requested on/off value, setting the system mode to manual. -/
theorem manual_control_exact_state_rejection (status : SystemStatus) :
    (ManualResult.isRejected (manualPumpControl "start" status) =
      decide (status.bomba_status = PumpStatus.on)) ∧
    (ManualResult.isRejected (manualPumpControl "stop" status) =
      decide (status.bomba_status = PumpStatus.off)) ∧
    (status.bomba_status = PumpStatus.maintenance ∨ status.bomba_status = PumpStatus.error →
      manualPumpControl "start" status =
        ManualResult.accepted
          { status with bomba_status := PumpStatus.on, system_mode := SystemMode.manual }
          "Bomba encendida manualmente" ∧
      manualPumpControl "stop" status =
        ManualResult.accepted
          { status with bomba_status := PumpStatus.off, system_mode := SystemMode.manual }
          "Bomba apagada manualmente") := by
  refine ⟨?_, ?_, ?_⟩ <;>
    cases hb : status.bomba_status <;>
      simp [manualPumpControl, ManualResult.isRejected, hb]

/-- Witness for C10: from a concrete maintenance snapshot both manual requests
are accepted and overwrite the maintenance state. -/
theorem manual_control_exact_state_rejection_witness :
    maintenanceStatus.bomba_status = PumpStatus.maintenance ∧
    manualPumpControl "start" maintenanceStatus =
      ManualResult.accepted
        { maintenanceStatus with bomba_status := PumpStatus.on
                                 system_mode := SystemMode.manual }
        "Bomba encendida manualmente" ∧
    manualPumpControl "stop" maintenanceStatus =
      ManualResult.accepted
        { maintenanceStatus with bomba_status := PumpStatus.off
                                 system_mode := SystemMode.manual }
        "Bomba apagada manualmente" :=
  ⟨rfl, (manual_control_exact_state_rejection maintenanceStatus).2.2 (Or.inl rfl)⟩

/-- C4 (amended): for the §8 scenario snapshot (tinaco low 22 %, cisterna
high, pump off) processed with the default settings, at any hour OUTSIDE the
default peak hours (the condition the claim leaves implicit, forced by the
counterexample) the decision is a start logged as auto_start, the alert
engine runs on the post-decision working copy — whose pump is already on —
and therefore the rule-3 tinaco-low warning is not emitted. -/
theorem alert_engine_sees_post_decision_state (currentHour : Int)
    (hPeak : defaultSettings.peak_hours.contains currentHour = false) :
    (updateSystemStatus currentHour lowTinacoStatus defaultSettings).working.bomba_status =
      PumpStatus.on ∧
    (updateSystemStatus currentHour lowTinacoStatus defaultSettings).logs.map
      WaterUsageLog.action = ["auto_start", "status_update"] ∧
    (updateSystemStatus currentHour lowTinacoStatus defaultSettings).alerts.filter
      (fun a => a.component == "tinaco") = [] := by
  have hctrl := control_start_no_gates currentHour lowTinacoStatus defaultSettings
    (by decide)
    (by rw [show defaultSettings.energy_saving_enabled = false from rfl, Bool.false_and])
    (by rw [show defaultSettings.avoid_peak_hours = true from rfl, Bool.true_and]; exact hPeak)
    (by decide)
  refine ⟨?_, ?_, ?_⟩ <;> simp only [updateSystemStatus, hctrl] <;> decide

/-- Witness for C4: the scenario at hour 10. -/
theorem alert_engine_sees_post_decision_state_witness :
    defaultSettings.peak_hours.contains 10 = false ∧
    ((updateSystemStatus 10 lowTinacoStatus defaultSettings).working.bomba_status =
      PumpStatus.on ∧
    (updateSystemStatus 10 lowTinacoStatus defaultSettings).logs.map
      WaterUsageLog.action = ["auto_start", "status_update"] ∧
    (updateSystemStatus 10 lowTinacoStatus defaultSettings).alerts.filter
      (fun a => a.component == "tinaco") = []) :=
  ⟨by decide, alert_engine_sees_post_decision_state 10 (by decide)⟩

/-- Counterexample for C4: the same snapshot processed at hour 18 — inside the
default peak hours — is deferred, the pump stays off, and the rule-3
tinaco-low warning IS emitted, so the claimed scenario outcome does not hold
for every report with these tank readings and default settings. -/
theorem alert_engine_post_decision_cx :
    (updateSystemStatus 18 lowTinacoStatus defaultSettings).working.bomba_status =
      PumpStatus.off ∧
    ((updateSystemStatus 18 lowTinacoStatus defaultSettings).alerts.filter
      (fun a => a.component == "tinaco")).length = 1 := by decide

/-- Helper for C5: the alerts of component "energia" produced by one rule
evaluation are exactly the rule-4 alert, emitted iff the daily consumption
exceeds the hard-coded 5.0 kWh; no other rule tags "energia". -/
theorem energia_filter_eq (status : SystemStatus) (settings : SystemSettings) :
    (checkAndGenerateAlerts status settings).filter (fun a => a.component == "energia") =
      (if status.daily_power_consumption > 5 then
        [createAlert ("Consumo energético alto: " ++ toString status.daily_power_consumption ++
          " kWh hoy") AlertType.warning "energia" 3]
      else []) := by
  unfold checkAndGenerateAlerts
  simp only [List.filter_append]
  split_ifs <;> simp [createAlert]

/-- C5 (amended): rule 4 emits a warning of severity 3 with component
"energia" exactly when the daily power consumption exceeds the hard-coded
constant 5.0 kWh; `SystemSettings` carries no daily power alarm threshold
field, and the emission is independent of the settings value (same output for
any two settings). -/
theorem energia_alert_hard_coded (status : SystemStatus)
    (settings settings2 : SystemSettings) :
    ((checkAndGenerateAlerts status settings).filter (fun a => a.component == "energia") =
      (if status.daily_power_consumption > 5 then
        [createAlert ("Consumo energético alto: " ++ toString status.daily_power_consumption ++
          " kWh hoy") AlertType.warning "energia" 3]
      else [])) ∧
    ((checkAndGenerateAlerts status settings).filter (fun a => a.component == "energia") =
      (checkAndGenerateAlerts status settings2).filter (fun a => a.component == "energia")) :=
  ⟨energia_filter_eq status settings,
    (energia_filter_eq status settings).trans (energia_filter_eq status settings2).symm⟩

/-- Modelled from the spec: §3 and §4.2 describe a "daily power alarm
threshold (kWh)" carried by Settings, against which rule 4 compares the daily
power consumption of the snapshot.  `SystemSettings` in models.py has no such
field — this definition follows the words of the spec with the threshold made
an explicit parameter, for comparison with the code. -/
def specRule4Emits (threshold : ℚ) (status : SystemStatus) : Bool :=
  decide (status.daily_power_consumption > threshold)

/-- Counterexample for C5: on a snapshot with 6 kWh daily consumption, a
configured threshold of 10 kWh would (per the spec reading) suppress the
alert, yet the code emits the "energia" warning — the comparison is against
the literal 5.0, not a settings-carried threshold, so the claimed dependence
on the Settings value for every value of that setting is false. -/
theorem energia_alert_cx :
    specRule4Emits 10 highPowerStatus = false ∧
    ((checkAndGenerateAlerts highPowerStatus defaultSettings).filter
      (fun a => a.component == "energia")).length = 1 := by decide

/-- C6 (amended): pydantic validation of `SystemSettings` enforces only the
per-field ranges (percentages within [0,100], leak sensitivity within
[0.1,1]); it contains no cross-field check, so every value meeting the
per-field ranges is accepted — including values with stop ≤ trigger. -/
theorem settings_validation_per_field_only (s : SystemSettings)
    (h1 : 0 ≤ s.fill_trigger_percentage) (h2 : s.fill_trigger_percentage ≤ 100)
    (h3 : 0 ≤ s.fill_stop_percentage) (h4 : s.fill_stop_percentage ≤ 100)
    (h5 : mkRat 1 10 ≤ s.leak_detection_sensitivity)
    (h6 : s.leak_detection_sensitivity ≤ 1) :
    validSettings s = true := by
  simp [validSettings, h1, h2, h3, h4, h5, h6]

/-- Witness for C6: the concrete settings with stop 40 ≤ trigger 50 pass
validation. -/
theorem settings_validation_per_field_only_witness :
    invertedThresholdSettings.fill_stop_percentage ≤
      invertedThresholdSettings.fill_trigger_percentage ∧
    validSettings invertedThresholdSettings = true :=
  ⟨by decide, settings_validation_per_field_only invertedThresholdSettings (by decide)
    (by decide) (by decide) (by decide) (by decide) (by decide)⟩

/-- Counterexample for C6: a settings value violating the stated invariant
(stop 40 ≤ trigger 50) is NOT rejected — it passes validation — and it IS used
in a control decision: the control engine consumes it and starts then
immediately stops the pump on a 45 % tinaco snapshot. -/
theorem settings_validation_cx :
    invertedThresholdSettings.fill_stop_percentage ≤
      invertedThresholdSettings.fill_trigger_percentage ∧
    validSettings invertedThresholdSettings = true ∧
    (applyAutomaticControl 10 midTinacoStatus invertedThresholdSettings).logs.map
      WaterUsageLog.action = ["auto_start", "auto_stop"] := by decide

/-- C8 (amended): the status record persisted to the status store is the
incoming pre-decision snapshot — `update_system_status` inserts it before the
control engine runs, so pump-state and mode changes made by the automatic
decision are seen by the alert engine and the activity log but are not
reflected in the persisted status record. -/
theorem persisted_status_is_pre_decision (currentHour : Int) (status : SystemStatus)
    (settings : SystemSettings) :
    (updateSystemStatus currentHour status settings).persisted = status := rfl

/-- Counterexample for C8: on the §8 start scenario the decision turns the
pump on in the working copy, yet the persisted record still has the pump off —
the persisted status is not the post-decision working copy. -/
theorem persisted_status_cx :
    (updateSystemStatus 10 lowTinacoStatus defaultSettings).persisted.bomba_status =
      PumpStatus.off ∧
    (updateSystemStatus 10 lowTinacoStatus defaultSettings).working.bomba_status =
      PumpStatus.on := by decide

/-- C9 (amended): every processed report derives exactly one log entry tagged
"status_update"; when the control engine starts or stops the pump it
additionally inserts an "auto_start" or "auto_stop" entry before it (possibly
both on one report).  No "deferred" or "no_action" action tag exists: a gated
start and a no-op report both leave only the "status_update" entry. -/
theorem log_actions_shape (currentHour : Int) (status : SystemStatus)
    (settings : SystemSettings) :
    (updateSystemStatus currentHour status settings).logs.map WaterUsageLog.action =
        ["status_update"] ∨
    (updateSystemStatus currentHour status settings).logs.map WaterUsageLog.action =
        ["auto_start", "status_update"] ∨
    (updateSystemStatus currentHour status settings).logs.map WaterUsageLog.action =
        ["auto_stop", "status_update"] ∨
    (updateSystemStatus currentHour status settings).logs.map WaterUsageLog.action =
        ["auto_start", "auto_stop", "status_update"] := by
  simp only [updateSystemStatus, applyAutomaticControl, applyStopCheck]
  split_ifs <;> simp [logActivity]

/-- Counterexample for C9: a start gated by the energy-saving policy (hour 12
outside the preferred hours) produces no log entry tagged "deferred" — the
only log record is the "status_update" one; the deferral surfaces solely as an
info alert. -/
theorem log_actions_cx :
    (updateSystemStatus 12 lowTinacoStatus energySavingSettings).logs.map
      WaterUsageLog.action = ["status_update"] ∧
    ((updateSystemStatus 12 lowTinacoStatus energySavingSettings).alerts.map
      Alert.message).contains "Llenado pospuesto por modo ahorro energético" = true := by
  decide

end WaterSystem
